import Mathlib

/-!
Shallow embedding of the texture module of the atlas-packer repository
(src/src/texture/mod.rs) together with theorems checking the
natural-language specification against it.

Modelling conventions:
* Rust f32/f64 arithmetic is modelled over the exact rationals; all the
  numeric operations involved are field operations and comparisons, so the
  formulas carry over directly.
* PathBuf is modelled as String.
* u32 values are modelled as Nat.  A Rust cast from a float to u32
  (which truncates toward zero and saturates below at 0) is modelled by
  f32_as_u32 below.  A u32 subtraction that could underflow (a panic in
  the source) is modelled by the Option-valued u32_sub.
* Functions that panic on some inputs (empty coordinate lists, underflow)
  are modelled as Option-valued, with none standing for the panic.
-/

/-- Rust cast of a nonnegative-or-negative float to u32: truncation toward
zero, saturating at 0 for negative inputs.  For q ≥ 0 truncation equals the
floor; for q < 0 the floor is negative and toNat yields 0, matching the
saturating cast. -/
def f32_as_u32 (q : ℚ) : ℕ := (⌊q⌋).toNat

/-- Rust u32 subtraction, with none standing for the underflow panic. -/
def u32_sub (a b : ℕ) : Option ℕ := if b ≤ a then some (a - b) else none

/-- Modelled from the spec: the source file imports calc_bbox from its
utils module (src/src/texture/mod.rs line 8), whose file is not under
src/.  Spec section 4.1: calc_bbox(points) returns
(min_x, min_y, max_x, max_y) and fails for an empty point set (modelled
as none).  One fold step accumulates componentwise min and max. -/
def bbox_step (acc : ℕ × ℕ × ℕ × ℕ) (p : ℕ × ℕ) : ℕ × ℕ × ℕ × ℕ :=
  (min acc.1 p.1, min acc.2.1 p.2, max acc.2.2.1 p.1, max acc.2.2.2 p.2)

/-- Modelled from the spec: calc_bbox over a point list; none on the empty
list (the spec says calc_bbox fails there). -/
def calc_bbox : List (ℕ × ℕ) → Option (ℕ × ℕ × ℕ × ℕ)
  | [] => none
  | p :: rest => some (rest.foldl bbox_step (p.1, p.2, p.1, p.2))

/-- Modelled from the spec: uv_to_pixel_coords lives in the missing utils
module.  Spec section 4.1: for each UV pair (u, v), pixel x = u * image_w
and pixel y = (1 - v) * image_h (Y-flip), rounded to integer pixel
indices, with result pairs of u32; the integer conversion is modelled by
the saturating cast f32_as_u32. -/
def uv_to_pixel_coords (uv_coords : List (ℚ × ℚ)) (w h : ℕ) : List (ℕ × ℕ) :=
  uv_coords.map fun p => (f32_as_u32 (p.1 * w), f32_as_u32 ((1 - p.2) * h))

/-- DownsampleFactor (mod.rs lines 13-28): a newtype around a float. -/
structure DownsampleFactor where
  val : ℚ
deriving DecidableEq

/-- DownsampleFactor::new (mod.rs lines 17-23): accepts factors in [0, 1]
and panics otherwise (the panic is modelled as none). -/
def DownsampleFactor.new (factor : ℚ) : Option DownsampleFactor :=
  if 0 ≤ factor ∧ factor ≤ 1 then some ⟨factor⟩ else none

/-- DownsampleFactor::value (mod.rs lines 25-27). -/
def DownsampleFactor.value (d : DownsampleFactor) : ℚ := d.val

/-- PolygonMappedTexture (mod.rs lines 31-38). -/
structure PolygonMappedTexture where
  image_path : String
  downsample_factor : DownsampleFactor
  pixel_coords : List (ℕ × ℕ)
deriving DecidableEq

/-- PolygonMappedTexture::new (mod.rs lines 41-54). -/
def PolygonMappedTexture.new (image_path : String) (size : ℕ × ℕ)
    (uv_coords : List (ℚ × ℚ)) (downsample_factor : DownsampleFactor) :
    PolygonMappedTexture :=
  { image_path := image_path
    downsample_factor := downsample_factor
    pixel_coords := uv_to_pixel_coords uv_coords size.1 size.2 }

/-- PolygonMappedTexture::get_bbox (mod.rs lines 56-59): converts the
(min_x, min_y, max_x, max_y) corners from calc_bbox into
(min_x, min_y, width, height) with width = max_x - min_x and
height = max_y - min_y. -/
def PolygonMappedTexture.get_bbox (t : PolygonMappedTexture) :
    Option (ℕ × ℕ × ℕ × ℕ) :=
  (calc_bbox t.pixel_coords).map fun bb =>
    (bb.1, bb.2.1, bb.2.2.1 - bb.1, bb.2.2.2 - bb.2.1)

/-- PolygonMappedTexture::bbox_overlaps (mod.rs lines 61-70): false for
different image paths, otherwise the negated disjunction of strict
separation tests on the two (origin, size) boxes.  The unreachable case of
an empty coordinate list (where calc_bbox fails in the source) is mapped
to false; theorems about this function assume nonempty coordinates. -/
def PolygonMappedTexture.bbox_overlaps (t other : PolygonMappedTexture) : Bool :=
  if t.image_path ≠ other.image_path then false
  else
    match t.get_bbox, other.get_bbox with
    | some (x1, y1, w1, h1), some (x2, y2, w2, h2) =>
        !(decide (x1 + w1 < x2) || decide (x2 + w2 < x1) ||
          decide (y1 + h1 < y2) || decide (y2 + h2 < y1))
    | _, _ => false

/-- One point of PolygonMappedTexture::get_cropped_uv_coords
(mod.rs lines 81-85): u = (px - x) / width and v = 1 - (py - y) / height,
with the u32 subtractions modelled as fallible. -/
def cropped_uv_point (x y width height : ℕ) (q : ℕ × ℕ) : Option (ℚ × ℚ) :=
  match u32_sub q.1 x, u32_sub q.2 y with
  | some dx, some dy => some ((dx : ℚ) / (width : ℚ), 1 - (dy : ℚ) / (height : ℚ))
  | _, _ => none

/-- Collecting an Option-valued map over a list: none as soon as one
element fails (the panic propagates). -/
def map_option {α β : Type} (f : α → Option β) : List α → Option (List β)
  | [] => some []
  | a :: l =>
    match f a, map_option f l with
    | some b, some bs => some (b :: bs)
    | _, _ => none

/-- PolygonMappedTexture::get_cropped_uv_coords (mod.rs lines 72-88). -/
def PolygonMappedTexture.get_cropped_uv_coords (t : PolygonMappedTexture)
    (x y width height : ℕ) : Option (List (ℚ × ℚ)) :=
  map_option (cropped_uv_point x y width height) t.pixel_coords

/-- ToplevelTexture (mod.rs lines 91-99): origin is the top-left corner of
the cropped region in the original image. -/
structure ToplevelTexture where
  image_path : String
  origin : ℕ × ℕ
  width : ℕ
  height : ℕ
  downsample_factor : DownsampleFactor
deriving DecidableEq

/-- ToplevelTexture::new (mod.rs lines 102-111): seeds the crop region
from one polygon texture's bbox (none when calc_bbox fails). -/
def ToplevelTexture.new (texture : PolygonMappedTexture) : Option ToplevelTexture :=
  texture.get_bbox.map fun bounding_box =>
    { image_path := texture.image_path
      origin := (bounding_box.1, bounding_box.2.1)
      width := bounding_box.2.2.1
      height := bounding_box.2.2.2
      downsample_factor := texture.downsample_factor }

/-- ToplevelTexture::expand (mod.rs lines 113-144).  The source
destructures the result of get_bbox, which is (min_x, min_y, width,
height), under the names (min_x_0, min_y_0, max_x_0, max_y_0); the
embedding reproduces that destructuring faithfully. -/
def ToplevelTexture.expand (t : ToplevelTexture) (texture : PolygonMappedTexture) :
    Option ToplevelTexture :=
  if t.image_path ≠ texture.image_path then none
  else
    match texture.get_bbox with
    | none => none
    | some (min_x_0, min_y_0, max_x_0, max_y_0) =>
      let min_x_1 := t.origin.1
      let min_y_1 := t.origin.2
      let max_x_1 := t.origin.1 + t.width
      let max_y_1 := t.origin.2 + t.height
      let min_x_new := min min_x_0 min_x_1
      let min_y_new := min min_y_0 min_y_1
      let max_x_new := max max_x_0 max_x_1
      let max_y_new := max max_y_0 max_y_1
      (DownsampleFactor.new
          (max t.downsample_factor.value texture.downsample_factor.value)).map
        fun d =>
          { image_path := texture.image_path
            origin := (min_x_new, min_y_new)
            width := max_x_new - min_x_new
            height := max_y_new - min_y_new
            downsample_factor := d }

/-- ChildTexture (mod.rs lines 233-238). -/
structure ChildTexture where
  image_path : String
  cropped_uv_coords : List (ℚ × ℚ)
deriving DecidableEq

/-- ToplevelTexture::get_child (mod.rs lines 146-153): note that the
source computes the bbox of the argument texture itself and feeds it to
get_cropped_uv_coords; the receiver is not consulted. -/
def ToplevelTexture.get_child (t : ToplevelTexture)
    (texture : PolygonMappedTexture) : Option ChildTexture :=
  match texture.get_bbox with
  | none => none
  | some (x, y, width, height) =>
    (texture.get_cropped_uv_coords x y width height).map fun cropped_uv_coords =>
      { image_path := texture.image_path, cropped_uv_coords := cropped_uv_coords }

/-- The spec's description of get_child (spec section 4.3 and claim C1):
each pixel coordinate re-expressed as a fraction of the toplevel crop
region, u = (px - origin.x) / width, v = 1 - (py - origin.y) / height. -/
def get_child_spec (t : ToplevelTexture) (texture : PolygonMappedTexture) :
    ChildTexture :=
  { image_path := texture.image_path
    cropped_uv_coords := texture.pixel_coords.map fun q =>
      (((q.1 : ℚ) - (t.origin.1 : ℚ)) / (t.width : ℚ),
       1 - ((q.2 : ℚ) - (t.origin.2 : ℚ)) / (t.height : ℚ)) }

/-- An RGBA pixel; fully transparent means alpha 0. -/
structure Rgba where
  r : ℕ
  g : ℕ
  b : ℕ
  a : ℕ
deriving DecidableEq

/-- The pixel-center coordinates computed inside ToplevelTexture::crop
(mod.rs lines 177-186), with samples = 1 as in the source: first
x = (px + 0.5) / width and y = 1 - (py + 0.5) / height, then a further
half-pixel shift. -/
def crop_pixel_center (px py width height : ℕ) : ℚ × ℚ :=
  let x := ((px : ℚ) + 1 / 2) / (width : ℚ)
  let y := 1 - ((py : ℚ) + 1 / 2) / (height : ℚ)
  (x + 1 / 2 / (width : ℚ), y - 1 / 2 / (height : ℚ))

/-- The containment condition of ToplevelTexture::crop (mod.rs lines
188-197): the call to is_point_inside_polygon is commented out in the
source and the condition is the literal true, so every pixel counts as
inside regardless of the center or the polygon. -/
def crop_pixel_is_inside (center : ℚ × ℚ) (cropped_uv_coords : List (ℚ × ℚ)) :
    Bool :=
  true

/-- The per-pixel masking of ToplevelTexture::crop (mod.rs lines
201-206): both the inside branch and the outside branch push the source
pixel unchanged (the outside branch carries a FIXME in the source). -/
def crop_mask_pixel (inside : Bool) (pixel : Rgba) : Rgba :=
  if inside then pixel else pixel

/-- Modelled from the spec: is_point_inside_polygon is referenced only in
commented-out form (mod.rs lines 190-193) and its definition is not under
src/.  Spec section 4.3 requires a point-in-polygon test at pixel
centers; modelled as standard even-odd ray casting over the polygon's
edges. -/
def ray_crosses (pt : ℚ × ℚ) (e : (ℚ × ℚ) × (ℚ × ℚ)) : Bool :=
  let x1 := e.1.1
  let y1 := e.1.2
  let x2 := e.2.1
  let y2 := e.2.2
  (decide (y1 > pt.2) != decide (y2 > pt.2)) &&
    decide (pt.1 < (x2 - x1) * (pt.2 - y1) / (y2 - y1) + x1)

/-- Modelled from the spec: even-odd ray-casting point-in-polygon test
over the edge list of the polygon. -/
def is_point_inside_polygon (pt : ℚ × ℚ) (poly : List (ℚ × ℚ)) : Bool :=
  (poly.zip (poly.rotate 1)).foldl
    (fun acc e => if ray_crosses pt e then !acc else acc) false

/-- The output dimensions computed at the end of ToplevelTexture::crop
(mod.rs lines 221-222): width and height each multiplied by the
downsample factor and cast to u32. -/
def crop_scaled_dims (width height : ℕ) (d : DownsampleFactor) : ℕ × ℕ :=
  (f32_as_u32 ((width : ℚ) * d.value), f32_as_u32 ((height : ℚ) * d.value))

/-- Membership in a closed pixel box given as (min_x, min_y, max_x, max_y). -/
def in_box (bb : ℕ × ℕ × ℕ × ℕ) (q : ℕ × ℕ) : Prop :=
  bb.1 ≤ q.1 ∧ q.1 ≤ bb.2.2.1 ∧ bb.2.1 ≤ q.2 ∧ q.2 ≤ bb.2.2.2

/-- Two closed pixel boxes intersect when some pixel lies in both;
edge-touching boxes share their boundary pixel and so intersect. -/
def boxes_intersect (b1 b2 : ℕ × ℕ × ℕ × ℕ) : Prop :=
  ∃ q : ℕ × ℕ, in_box b1 q ∧ in_box b2 q

/- Concrete fixtures used by the counterexample theorems. -/

/-- A polygon texture whose bbox is the unit square at the origin. -/
def pA : PolygonMappedTexture :=
  { image_path := "img", downsample_factor := ⟨1⟩, pixel_coords := [(0, 0), (1, 1)] }

/-- A polygon texture whose bbox is [10, 12] × [10, 12]. -/
def pB : PolygonMappedTexture :=
  { image_path := "img", downsample_factor := ⟨1⟩, pixel_coords := [(10, 10), (12, 12)] }

/-- A toplevel texture covering [0, 10] × [0, 10] of image img. -/
def tC1 : ToplevelTexture :=
  { image_path := "img", origin := (0, 0), width := 10, height := 10,
    downsample_factor := ⟨1⟩ }

/-- A polygon texture strictly inside tC1's region, with bbox (2, 2, 4, 4). -/
def pC1 : PolygonMappedTexture :=
  { image_path := "img", downsample_factor := ⟨1⟩,
    pixel_coords := [(2, 2), (6, 2), (6, 6)] }

/-- C4: DownsampleFactor::new succeeds exactly on factors in [0, 1], value
returns the stored factor unchanged, and out-of-range factors are a
construction failure (a panic in the source), never a clamp. -/
theorem downsample_factor_new_spec (f : ℚ) :
    ((0 ≤ f ∧ f ≤ 1) → ∃ d, DownsampleFactor.new f = some d ∧ d.value = f) ∧
    (¬(0 ≤ f ∧ f ≤ 1) → DownsampleFactor.new f = none) := by
  constructor
  · intro h
    exact ⟨⟨f⟩, by simp [DownsampleFactor.new, h], rfl⟩
  · intro h
    simp [DownsampleFactor.new, h]

theorem downsample_factor_new_spec_witness :
    (∃ d, DownsampleFactor.new (1 / 2) = some d ∧ d.value = 1 / 2) ∧
    DownsampleFactor.new 2 = none :=
  ⟨(downsample_factor_new_spec (1 / 2)).1 (by norm_num),
   (downsample_factor_new_spec 2).2 (by norm_num)⟩

/-- C1 (code bug): at a concrete toplevel texture tC1 covering
[0, 10] x [0, 10] and polygon pC1 with bbox (2, 2, 4, 4) strictly inside
it, get_child returns UV coordinates relative to pC1's own bounding box,
not the fractions of the toplevel crop region that the specification (and
the ChildTexture field comment in the source) prescribe. -/
theorem get_child_uses_own_bbox_not_toplevel :
    tC1.get_child pC1 =
      some { image_path := "img", cropped_uv_coords := [(0, 1), (1, 1), (1, 0)] } ∧
    get_child_spec tC1 pC1 =
      { image_path := "img",
        cropped_uv_coords := [(1/5, 4/5), (3/5, 4/5), (3/5, 2/5)] } ∧
    ([(0, 1), (1, 1), (1, 0)] : List (ℚ × ℚ)) ≠
      [(1/5, 4/5), (3/5, 4/5), (3/5, 2/5)] := by
  refine ⟨?_, ?_, ?_⟩
  · simp [tC1, pC1, ToplevelTexture.get_child, PolygonMappedTexture.get_bbox,
      calc_bbox, bbox_step, PolygonMappedTexture.get_cropped_uv_coords,
      map_option, cropped_uv_point, u32_sub]
  · simp [get_child_spec, tC1, pC1]
    norm_num
  · norm_num

/-- C2 (code bug): expanding the unit-square toplevel texture built from
pA with pB (bbox (10, 10, 2, 2)) succeeds, but because the source
destructures get_bbox's (min, min, width, height) as min/max corners, the
resulting region is [0, 2] x [0, 2]: its far corner 0 + 2 lies strictly
left of pB's bbox corner 10 + 2, so the result does not contain the union
of the two input bboxes. -/
theorem expand_misreads_bbox_drops_union :
    pA.get_bbox = some (0, 0, 1, 1) ∧
    pB.get_bbox = some (10, 10, 2, 2) ∧
    (ToplevelTexture.new pA).bind (fun t => t.expand pB) =
      some { image_path := "img", origin := (0, 0), width := 2, height := 2,
             downsample_factor := ⟨1⟩ } ∧
    0 + 2 < 10 + 2 := by
  refine ⟨?_, ?_, ?_, by norm_num⟩
  · simp [pA, PolygonMappedTexture.get_bbox, calc_bbox, bbox_step]
  · simp [pB, PolygonMappedTexture.get_bbox, calc_bbox, bbox_step]
  · simp [pA, pB, ToplevelTexture.new, ToplevelTexture.expand,
      PolygonMappedTexture.get_bbox, calc_bbox, bbox_step,
      DownsampleFactor.new, DownsampleFactor.value]

/-- C3 (code bug): folding expand over the same two polygon textures in
the two possible orders yields crop regions of different widths (2 versus
12), so the merged region depends on the merge order and, in the first
order, is not the union of the two bboxes. -/
theorem expand_fold_order_dependent :
    (ToplevelTexture.new pA).bind (fun t => t.expand pB) =
      some { image_path := "img", origin := (0, 0), width := 2, height := 2,
             downsample_factor := ⟨1⟩ } ∧
    (ToplevelTexture.new pB).bind (fun t => t.expand pA) =
      some { image_path := "img", origin := (0, 0), width := 12, height := 12,
             downsample_factor := ⟨1⟩ } ∧
    (2 : ℕ) ≠ 12 := by
  refine ⟨?_, ?_, by norm_num⟩
  · simp [pA, pB, ToplevelTexture.new, ToplevelTexture.expand,
      PolygonMappedTexture.get_bbox, calc_bbox, bbox_step,
      DownsampleFactor.new, DownsampleFactor.value]
  · simp [pA, pB, ToplevelTexture.new, ToplevelTexture.expand,
      PolygonMappedTexture.get_bbox, calc_bbox, bbox_step,
      DownsampleFactor.new, DownsampleFactor.value]

/-- C6 (code bug): the pixel at (8, 8) of a 10 x 10 crop region has its
center at (9/10, 1/10), which lies outside the triangle with vertices
(0, 0), (1/2, 0), (0, 1/2); yet the containment condition in crop is the
stubbed literal true, so the masking step keeps the fully opaque source
pixel instead of producing a fully transparent one. -/
theorem crop_mask_stub_keeps_outside_pixel :
    is_point_inside_polygon (crop_pixel_center 8 8 10 10)
      [(0, 0), (1/2, 0), (0, 1/2)] = false ∧
    crop_pixel_is_inside (crop_pixel_center 8 8 10 10)
      [(0, 0), (1/2, 0), (0, 1/2)] = true ∧
    crop_mask_pixel
      (crop_pixel_is_inside (crop_pixel_center 8 8 10 10)
        [(0, 0), (1/2, 0), (0, 1/2)])
      { r := 255, g := 0, b := 0, a := 255 } =
      { r := 255, g := 0, b := 0, a := 255 } ∧
    (255 : ℕ) ≠ 0 := by
  refine ⟨?_, rfl, rfl, by norm_num⟩
  have hc : crop_pixel_center 8 8 10 10 = (9/10, 1/10) := by
    simp [crop_pixel_center]
    norm_num
  rw [hc]
  simp [is_point_inside_polygon, List.rotate, ray_crosses]
  norm_num

/-- C8 counterexample: the UV pair (-1, 1/2) is outside [0, 1] in its
first component, yet the resulting pixel coordinate pair is (0, 5), which
lies inside the bounds of a 10 x 10 image: the claim that out-of-range UV
always produces pixel coordinates outside the image bounds fails, because
a u32 result cannot represent the negative coordinate -10 and the cast
saturates to 0. -/
theorem uv_to_pixel_negative_u_in_bounds :
    uv_to_pixel_coords [(-1, 1/2)] 10 10 = [(0, 5)] ∧
    (0 : ℕ) < 10 ∧ (5 : ℕ) < 10 := by
  refine ⟨?_, by norm_num, by norm_num⟩
  simp [uv_to_pixel_coords, f32_as_u32]
  norm_num
  decide

/-- The fold underlying calc_bbox keeps the min components below the max
components. -/
theorem foldl_bbox_step_invariant (rest : List (ℕ × ℕ)) :
    ∀ acc : ℕ × ℕ × ℕ × ℕ, acc.1 ≤ acc.2.2.1 → acc.2.1 ≤ acc.2.2.2 →
      (rest.foldl bbox_step acc).1 ≤ (rest.foldl bbox_step acc).2.2.1 ∧
      (rest.foldl bbox_step acc).2.1 ≤ (rest.foldl bbox_step acc).2.2.2 := by
  induction rest with
  | nil => intro acc h1 h2; exact ⟨h1, h2⟩
  | cons p rest ih =>
    intro acc h1 h2
    simp only [List.foldl_cons]
    exact ih (bbox_step acc p)
      (by show min acc.1 p.1 ≤ max acc.2.2.1 p.1; omega)
      (by show min acc.2.1 p.2 ≤ max acc.2.2.2 p.2; omega)

/-- The corners returned by calc_bbox satisfy min_x ≤ max_x and
min_y ≤ max_y. -/
theorem calc_bbox_min_le_max (l : List (ℕ × ℕ)) (bb : ℕ × ℕ × ℕ × ℕ)
    (h : calc_bbox l = some bb) : bb.1 ≤ bb.2.2.1 ∧ bb.2.1 ≤ bb.2.2.2 := by
  match l, h with
  | p :: rest, h =>
    simp only [calc_bbox, Option.some.injEq] at h
    subst h
    exact foldl_bbox_step_invariant rest (p.1, p.2, p.1, p.2) le_rfl le_rfl

/-- calc_bbox succeeds on every nonempty point list. -/
theorem calc_bbox_some_of_ne_nil (l : List (ℕ × ℕ)) (h : l ≠ []) :
    ∃ bb, calc_bbox l = some bb := by
  match l, h with
  | p :: rest, _ => exact ⟨_, rfl⟩

/-- C5: for two polygon textures on the same source image (with nonempty
coordinate lists, which the source requires for calc_bbox), bbox_overlaps
is true exactly when the two derived closed pixel bounding boxes
intersect; edge-touching boxes share a boundary pixel and therefore count
as intersecting. -/
theorem bbox_overlaps_iff_boxes_intersect (a b : PolygonMappedTexture)
    (hpath : a.image_path = b.image_path) (ba bb : ℕ × ℕ × ℕ × ℕ)
    (ha : calc_bbox a.pixel_coords = some ba)
    (hb : calc_bbox b.pixel_coords = some bb) :
    (a.bbox_overlaps b = true ↔ boxes_intersect ba bb) := by
  have hA := calc_bbox_min_le_max _ _ ha
  have hB := calc_bbox_min_le_max _ _ hb
  obtain ⟨ax, ay, aX, aY⟩ := ba
  obtain ⟨cx, cy, cX, cY⟩ := bb
  simp only at hA hB
  simp only [PolygonMappedTexture.bbox_overlaps, PolygonMappedTexture.get_bbox,
    ha, hb, hpath, ne_eq, not_true_eq_false, if_false, Option.map_some']
  simp only [Bool.not_eq_eq_eq_not, Bool.not_true, Bool.or_eq_false_iff,
    decide_eq_false_iff_not, not_lt]
  constructor
  · rintro ⟨⟨⟨h1, h2⟩, h3⟩, h4⟩
    refine ⟨(max ax cx, max ay cy), ?_, ?_⟩
    · simp only [in_box]
      omega
    · simp only [in_box]
      omega
  · rintro ⟨q, hq1, hq2⟩
    simp only [in_box] at hq1 hq2
    omega

/-- C5 witness: pA and pB live on the same image; their boxes [0,1]² and
[10,12]² do not intersect and bbox_overlaps is false accordingly. -/
theorem bbox_overlaps_iff_boxes_intersect_witness :
    pA.bbox_overlaps pB = true ↔ boxes_intersect (0, 0, 1, 1) (10, 10, 12, 12) :=
  bbox_overlaps_iff_boxes_intersect pA pB rfl (0, 0, 1, 1) (10, 10, 12, 12)
    (by simp [pA, calc_bbox, bbox_step]) (by simp [pB, calc_bbox, bbox_step])

/-- C9: bbox_overlaps is symmetric (for coordinate lists the source can
process, i.e. nonempty ones); in particular it is false in both
directions when the image paths differ. -/
theorem bbox_overlaps_symm (a b : PolygonMappedTexture)
    (ha : a.pixel_coords ≠ []) (hb : b.pixel_coords ≠ []) :
    a.bbox_overlaps b = b.bbox_overlaps a := by
  obtain ⟨ba, hba⟩ := calc_bbox_some_of_ne_nil _ ha
  obtain ⟨bb, hbb⟩ := calc_bbox_some_of_ne_nil _ hb
  obtain ⟨ax, ay, aX, aY⟩ := ba
  obtain ⟨cx, cy, cX, cY⟩ := bb
  by_cases hp : a.image_path = b.image_path
  · simp only [PolygonMappedTexture.bbox_overlaps, PolygonMappedTexture.get_bbox,
      hba, hbb, hp, ne_eq, not_true_eq_false, if_false, Option.map_some']
    rw [Bool.eq_iff_iff]
    simp only [Bool.not_eq_eq_eq_not, Bool.not_true, Bool.or_eq_false_iff,
      decide_eq_false_iff_not, not_lt]
    constructor
    · intro h; omega
    · intro h; omega
  · have hp2 : ¬b.image_path = a.image_path := fun e => hp e.symm
    simp [PolygonMappedTexture.bbox_overlaps, hp, hp2]

/-- C9 witness at the concrete fixtures pA and pB. -/
theorem bbox_overlaps_symm_witness : pA.bbox_overlaps pB = pB.bbox_overlaps pA :=
  bbox_overlaps_symm pA pB (by simp [pA]) (by simp [pB])

/-- C7: for a downsample factor in [0, 1], the output dimensions computed
by crop are width and height each multiplied by the factor and converted
by the implementation's float-to-u32 cast, and neither output dimension
exceeds the corresponding input dimension. -/
theorem crop_scaled_dims_le (width height : ℕ) (d : DownsampleFactor)
    (h0 : 0 ≤ d.value) (h1 : d.value ≤ 1) :
    crop_scaled_dims width height d =
      (f32_as_u32 ((width : ℚ) * d.value), f32_as_u32 ((height : ℚ) * d.value)) ∧
    (crop_scaled_dims width height d).1 ≤ width ∧
    (crop_scaled_dims width height d).2 ≤ height := by
  have hclip : 0 ≤ d.value := h0
  refine ⟨rfl, ?_, ?_⟩
  · show (⌊(width : ℚ) * d.value⌋).toNat ≤ width
    have h2 : ((width : ℚ) * d.value) ≤ (width : ℚ) :=
      mul_le_of_le_one_right (Nat.cast_nonneg width) h1
    have h3 : ⌊(width : ℚ) * d.value⌋ ≤ ⌊(width : ℚ)⌋ := Int.floor_le_floor h2
    rw [Int.floor_natCast] at h3
    omega
  · show (⌊(height : ℚ) * d.value⌋).toNat ≤ height
    have h2 : ((height : ℚ) * d.value) ≤ (height : ℚ) :=
      mul_le_of_le_one_right (Nat.cast_nonneg height) h1
    have h3 : ⌊(height : ℚ) * d.value⌋ ≤ ⌊(height : ℚ)⌋ := Int.floor_le_floor h2
    rw [Int.floor_natCast] at h3
    omega

/-- C7 witness at width 5, height 3 and factor 1/2. -/
theorem crop_scaled_dims_le_witness :
    crop_scaled_dims 5 3 ⟨1/2⟩ =
      (f32_as_u32 ((5 : ℚ) * DownsampleFactor.value ⟨1/2⟩),
       f32_as_u32 ((3 : ℚ) * DownsampleFactor.value ⟨1/2⟩)) ∧
    (crop_scaled_dims 5 3 ⟨1/2⟩).1 ≤ 5 ∧
    (crop_scaled_dims 5 3 ⟨1/2⟩).2 ≤ 3 :=
  crop_scaled_dims_le 5 3 ⟨1/2⟩
    (by norm_num [DownsampleFactor.value]) (by norm_num [DownsampleFactor.value])

/-- C8 as amended: each UV pair is mapped to the spec's formula under the
u32 cast; a UV component above 1 (or v below 0) yields a pixel coordinate
at or beyond the image extent, but a negative intermediate value (u below
0, or v above 1) saturates to pixel coordinate 0, which lies inside the
image bounds, because u32 cannot represent negative coordinates. -/
theorem uv_to_pixel_coords_amended (u v : ℚ) (w h : ℕ)
    (hw : 0 < w) (hh : 0 < h) :
    uv_to_pixel_coords [(u, v)] w h =
      [(f32_as_u32 (u * w), f32_as_u32 ((1 - v) * h))] ∧
    (1 < u → w ≤ f32_as_u32 (u * w)) ∧
    (v < 0 → h ≤ f32_as_u32 ((1 - v) * h)) ∧
    (u < 0 → f32_as_u32 (u * w) = 0) ∧
    (1 < v → f32_as_u32 ((1 - v) * h) = 0) := by
  refine ⟨rfl, ?_, ?_, ?_, ?_⟩
  · intro hu
    show w ≤ (⌊u * (w : ℚ)⌋).toNat
    have hwq : (0 : ℚ) < (w : ℚ) := by exact_mod_cast hw
    have h2 : (w : ℚ) ≤ u * w := by nlinarith
    have h3 : (w : ℤ) ≤ ⌊u * (w : ℚ)⌋ := Int.le_floor.mpr (by push_cast; exact h2)
    omega
  · intro hv
    show h ≤ (⌊(1 - v) * (h : ℚ)⌋).toNat
    have hhq : (0 : ℚ) < (h : ℚ) := by exact_mod_cast hh
    have h2 : (h : ℚ) ≤ (1 - v) * h := by nlinarith
    have h3 : (h : ℤ) ≤ ⌊(1 - v) * (h : ℚ)⌋ := Int.le_floor.mpr (by push_cast; exact h2)
    omega
  · intro hu
    show (⌊u * (w : ℚ)⌋).toNat = 0
    have h2 : u * (w : ℚ) ≤ 0 :=
      mul_nonpos_of_nonpos_of_nonneg (le_of_lt hu) (Nat.cast_nonneg w)
    have h3 : ⌊u * (w : ℚ)⌋ ≤ 0 := Int.floor_nonpos h2
    omega
  · intro hv
    show (⌊(1 - v) * (h : ℚ)⌋).toNat = 0
    have h2 : (1 - v) * (h : ℚ) ≤ 0 :=
      mul_nonpos_of_nonpos_of_nonneg (by linarith) (Nat.cast_nonneg h)
    have h3 : ⌊(1 - v) * (h : ℚ)⌋ ≤ 0 := Int.floor_nonpos h2
    omega

/-- C8 amended witness at the out-of-range pair (2, -1) on a 10 x 10
image. -/
theorem uv_to_pixel_coords_amended_witness :
    uv_to_pixel_coords [(2, -1)] 10 10 =
      [(f32_as_u32 ((2 : ℚ) * 10), f32_as_u32 ((1 - (-1 : ℚ)) * 10))] ∧
    ((1 : ℚ) < 2 → 10 ≤ f32_as_u32 ((2 : ℚ) * 10)) ∧
    ((-1 : ℚ) < 0 → 10 ≤ f32_as_u32 ((1 - (-1 : ℚ)) * 10)) ∧
    ((2 : ℚ) < 0 → f32_as_u32 ((2 : ℚ) * 10) = 0) ∧
    ((1 : ℚ) < -1 → f32_as_u32 ((1 - (-1 : ℚ)) * 10) = 0) :=
  uv_to_pixel_coords_amended 2 (-1) 10 10 (by norm_num) (by norm_num)

/-- An Option-valued map over a list succeeds when every element succeeds,
and every output element is the image of some input element. -/
theorem map_option_total {α β : Type} (f : α → Option β) (l : List α)
    (hl : ∀ x ∈ l, (f x).isSome) :
    ∃ out, map_option f l = some out ∧ ∀ b ∈ out, ∃ x ∈ l, f x = some b := by
  induction l with
  | nil => exact ⟨[], rfl, by simp⟩
  | cons x l ih =>
    obtain ⟨b, hb⟩ := Option.isSome_iff_exists.mp (hl x (List.mem_cons_self x l))
    obtain ⟨out, hout, hmem⟩ := ih (fun y hy => hl y (List.mem_cons_of_mem _ hy))
    refine ⟨b :: out, ?_, ?_⟩
    · simp [map_option, hb, hout]
    · intro c hc
      rcases List.mem_cons.mp hc with hcb | hc2
      · exact ⟨x, List.mem_cons_self x l, hcb ▸ hb⟩
      · obtain ⟨y, hy, hfy⟩ := hmem c hc2
        exact ⟨y, List.mem_cons_of_mem _ hy, hfy⟩

/-- C10: for a crop rectangle with positive width and height, when every
pixel coordinate of the polygon lies at or beyond the rectangle origin,
get_cropped_uv_coords succeeds (no u32 subtraction underflows); when
additionally every pixel coordinate lies within the far corner, every
resulting u and v lies in [0, 1]. -/
theorem get_cropped_uv_coords_total_and_bounded (p : PolygonMappedTexture)
    (x y width height : ℕ) (hw : 0 < width) (hh : 0 < height)
    (hlo : ∀ q ∈ p.pixel_coords, x ≤ q.1 ∧ y ≤ q.2) :
    ∃ l, p.get_cropped_uv_coords x y width height = some l ∧
      ((∀ q ∈ p.pixel_coords, q.1 ≤ x + width ∧ q.2 ≤ y + height) →
        ∀ uv ∈ l, 0 ≤ uv.1 ∧ uv.1 ≤ 1 ∧ 0 ≤ uv.2 ∧ uv.2 ≤ 1) := by
  obtain ⟨l, hl, hmem⟩ :=
    map_option_total (cropped_uv_point x y width height) p.pixel_coords
      (fun q hq => by
        obtain ⟨h1, h2⟩ := hlo q hq
        simp [cropped_uv_point, u32_sub, h1, h2])
  refine ⟨l, hl, ?_⟩
  intro hhi uv huv
  obtain ⟨q, hq, hfq⟩ := hmem uv huv
  obtain ⟨h1, h2⟩ := hlo q hq
  obtain ⟨h3, h4⟩ := hhi q hq
  have hval : cropped_uv_point x y width height q =
      some (((q.1 - x : ℕ) : ℚ) / (width : ℚ),
            1 - ((q.2 - y : ℕ) : ℚ) / (height : ℚ)) := by
    simp [cropped_uv_point, u32_sub, h1, h2]
  rw [hval] at hfq
  injection hfq with hpair
  subst hpair
  have hwq : (0 : ℚ) < (width : ℚ) := by exact_mod_cast hw
  have hhq : (0 : ℚ) < (height : ℚ) := by exact_mod_cast hh
  have hxw : ((q.1 - x : ℕ) : ℚ) ≤ (width : ℚ) := by exact_mod_cast Nat.sub_le_iff_le_add.mpr (by omega)
  have hyh : ((q.2 - y : ℕ) : ℚ) ≤ (height : ℚ) := by exact_mod_cast Nat.sub_le_iff_le_add.mpr (by omega)
  have hu0 : (0 : ℚ) ≤ ((q.1 - x : ℕ) : ℚ) / (width : ℚ) :=
    div_nonneg (Nat.cast_nonneg _) (le_of_lt hwq)
  have hu1 : ((q.1 - x : ℕ) : ℚ) / (width : ℚ) ≤ 1 := (div_le_one hwq).mpr hxw
  have hv0 : (0 : ℚ) ≤ ((q.2 - y : ℕ) : ℚ) / (height : ℚ) :=
    div_nonneg (Nat.cast_nonneg _) (le_of_lt hhq)
  have hv1 : ((q.2 - y : ℕ) : ℚ) / (height : ℚ) ≤ 1 := (div_le_one hhq).mpr hyh
  refine ⟨hu0, hu1, by linarith, by linarith⟩

/-- A one-point polygon texture used by the C10 witness. -/
def pW : PolygonMappedTexture :=
  { image_path := "img", downsample_factor := ⟨1⟩, pixel_coords := [(3, 4)] }

/-- C10 witness: the pixel point (3, 4) against the crop rectangle with
origin (2, 2), width 2, height 4. -/
theorem get_cropped_uv_coords_total_and_bounded_witness :
    ∃ l, pW.get_cropped_uv_coords 2 2 2 4 = some l ∧
      ((∀ q ∈ pW.pixel_coords, q.1 ≤ 2 + 2 ∧ q.2 ≤ 2 + 4) →
        ∀ uv ∈ l, 0 ≤ uv.1 ∧ uv.1 ≤ 1 ∧ 0 ≤ uv.2 ∧ uv.2 ≤ 1) :=
  get_cropped_uv_coords_total_and_bounded pW 2 2 2 4
    (by norm_num) (by norm_num) (by simp [pW])
